import Mathlib

/-!
Verification of the `sd` library (packages `sdlisten` and `sdnotify`): a
shallow embedding of the Go source into Lean, followed by theorems about the
embedded definitions.

Modelling conventions:
- Environment variables are `Option String` fields of explicit state records;
  `os.Getenv` returns the empty string for an unset variable, modelled by
  `getenv`.
- `strconv.Atoi` / `strconv.ParseInt(s, 10, 64)` are modelled by `go_atoi`:
  an optional sign, one or more ASCII digits, and a signed 64-bit range check
  (out-of-range input yields a non-nil error in Go, hence `none` here).
- Byte slices are `List Nat` (byte values); all protocol constants are ASCII,
  so `strBytes` (UTF-8 of an ASCII string) is char-code mapping.
- Functions that can panic return `Option`: `none` models a runtime panic
  (`Files` calls `make([]*os.File, nfds)`, which panics when `nfds < 0`).
- The datagram transport is a state record `World`: the socket path, oracles
  for dial/write failures and for the monotonic clock, and the list of
  datagrams transmitted so far. One appended element = one datagram.
- Socket conversion (`net.FileListener` / `net.FilePacketConn`) is an oracle
  `Nat → ConvResult` indexed by descriptor number.
-/

namespace Sd

/-- One digit character, `0`..`9` (ASCII), as checked by `strconv.ParseInt`. -/
def isDigitChar (c : Char) : Bool := decide ('0' ≤ c) && decide (c ≤ '9')

/-- Decimal value of a digit list (most significant first). -/
def digitsVal (cs : List Char) : Nat :=
  cs.foldl (fun n c => n * 10 + (c.toNat - 48)) 0

/-- Smallest signed 64-bit integer. -/
def int64Min : Int := -(2 ^ 63)

/-- Largest signed 64-bit integer. -/
def int64Max : Int := 2 ^ 63 - 1

/-- Model of Go `strconv.Atoi` (equivalently `strconv.ParseInt(s, 10, 64)` on
a 64-bit platform): optional `+`/`-` sign, then one or more ASCII digits; any
other input, and any value outside the signed 64-bit range, makes Go return a
non-nil error, modelled by `none`. -/
def go_atoi (s : String) : Option Int :=
  match s.toList with
  | [] => none
  | c :: cs =>
    let p : Bool × List Char :=
      if c = '-' then (true, cs)
      else if c = '+' then (false, cs)
      else (false, c :: cs)
    if p.2.isEmpty || !(p.2.all isDigitChar) then none
    else
      let v : Int := if p.1 then -(digitsVal p.2 : Int) else (digitsVal p.2 : Int)
      if v < int64Min ∨ int64Max < v then none else some v

/-- Wrap an integer into the signed 64-bit range, as Go's two's-complement
`int64` arithmetic does on overflow. -/
def wrap64 (x : Int) : Int := (x + 2 ^ 63) % 2 ^ 64 - 2 ^ 63

/-- `os.Getenv`: an absent variable reads as the empty string. -/
def getenv (v : Option String) : String := v.getD ""

/-- The environment variables the library consumes. `none` = unset. -/
structure SdEnv where
  listenPid : Option String
  listenFds : Option String
  listenFdnames : Option String
  watchdogUsec : Option String
  watchdogPid : Option String
deriving DecidableEq

/-- `os.Unsetenv` of `LISTEN_PID`, `LISTEN_FDS` and `LISTEN_FDNAMES`, as the
deferred block in `Files(true)` performs. -/
def clearListenEnv (env : SdEnv) : SdEnv :=
  { env with listenPid := none, listenFds := none, listenFdnames := none }

/-- Helper for `goSplitColon`: `acc` holds the current field's characters in
reverse. -/
def splitColonAux : List Char → List Char → List String
  | [], acc => [String.mk acc.reverse]
  | c :: cs, acc =>
    if c = ':' then String.mk acc.reverse :: splitColonAux cs []
    else splitColonAux cs (c :: acc)

/-- Go `strings.Split(s, ":")`: the fields of `s` between occurrences of the
colon; the empty string yields `[""]`, matching Go. -/
def goSplitColon (s : String) : List String := splitColonAux s.toList []

/-- `SD_LISTEN_FDS_START`: inherited descriptors start at numeral 3. -/
def listenFdsStart : Nat := 3

/-- A raw `*os.File` as produced by `os.NewFile(uintptr(fd), name)`. -/
structure GoFile where
  fd : Nat
  name : String
deriving DecidableEq

/-- The name assigned to slot `i` (descriptor numeral `fd`): the `i`-th parsed
name when present and non-empty, else the synthesized `LISTEN_FD_<fd>`.
Mirrors the loop body of `Files` in `sdlisten/sdlisten.go`. -/
def fdName (names : List String) (i : Nat) (fd : Nat) : String :=
  match names[i]? with
  | some s => if 0 < s.length then s else "LISTEN_FD_" ++ toString fd
  | none => "LISTEN_FD_" ++ toString fd

/-- The body of `sdlisten.Files` (Linux build), without the optional
environment clearing. `some files` is a normal return (Go's `nil` slice is
`some []`); `none` models the runtime panic of `make([]*os.File, nfds)` when
`nfds` is negative. -/
def FilesCore (env : SdEnv) (selfPid : Int) : Option (List GoFile) :=
  match go_atoi (getenv env.listenPid) with
  | none => some []
  | some pid =>
    if pid ≠ selfPid then some []
    else
      match go_atoi (getenv env.listenFds) with
      | none => some []
      | some nfds =>
        if nfds = 0 then some []
        else if nfds < 0 then none
        else
          let names := goSplitColon (getenv env.listenFdnames)
          some ((List.range nfds.toNat).map fun i =>
            { fd := i + listenFdsStart, name := fdName names i (i + listenFdsStart) })

/-- `sdlisten.Files(unsetEnvironment)`: the result of `FilesCore` together
with the environment state after the call (the deferred `os.Unsetenv` calls
run whether resolution succeeded, failed soft, or panicked). -/
def Files (unsetEnvironment : Bool) (env : SdEnv) (selfPid : Int) :
    Option (List GoFile) × SdEnv :=
  (FilesCore env selfPid, if unsetEnvironment then clearListenEnv env else env)

end Sd

namespace Sd

/-- Outcome of `net.FileListener` / `net.FilePacketConn` on one descriptor:
success (carrying the address network of the produced listener, e.g. `"tcp"`
or `"unix"`) or a conversion error. Supplied as an oracle indexed by the
descriptor numeral. -/
inductive ConvResult where
  | ok (network : String)
  | fail (msg : String)
deriving DecidableEq

/-- `sdlisten.Listener`: a converted stream listener with its systemd name.
`tlsWrapped` records whether `tls.NewListener` was layered on top. -/
structure Listener where
  name : String
  network : String
  tlsWrapped : Bool
deriving DecidableEq

/-- `sdlisten.PacketConn`: a converted datagram receiver with its name. -/
structure PacketConn where
  name : String
deriving DecidableEq

/-- The per-descriptor error wrapped by `Listeners`. -/
def listenerErr (name msg : String) : String :=
  "sdlisten: unable to open listener (" ++ name ++ "): " ++ msg

/-- The per-descriptor error wrapped by `PacketConns`. -/
def packetConnErr (name msg : String) : String :=
  "sdlisten: unable to open packet conn (" ++ name ++ "): " ++ msg

/-- The conversion loop of `sdlisten.Listeners`: successes are appended in
order, failures are accumulated (`errors.Join` keeps every non-nil error in
order, modelled by a list; `[]` is a nil joined error). -/
def materializeListeners (convL : Nat → ConvResult) :
    List GoFile → List Listener × List String
  | [] => ([], [])
  | f :: fs =>
    let rest := materializeListeners convL fs
    match convL f.fd with
    | .ok net => ({ name := f.name, network := net, tlsWrapped := false } :: rest.1, rest.2)
    | .fail e => (rest.1, listenerErr f.name e :: rest.2)

/-- The conversion loop of `sdlisten.PacketConns`. -/
def materializePacketConns (convP : Nat → ConvResult) :
    List GoFile → List PacketConn × List String
  | [] => ([], [])
  | f :: fs =>
    let rest := materializePacketConns convP fs
    match convP f.fd with
    | .ok _ => ({ name := f.name } :: rest.1, rest.2)
    | .fail e => (rest.1, packetConnErr f.name e :: rest.2)

/-- `sdlisten.Listeners`: resolves descriptors via `Files(true)` and converts
each. First component `none` only when `Files` panicked (the panic
propagates); the second component is the environment after the call. -/
def Listeners (convL : Nat → ConvResult) (env : SdEnv) (selfPid : Int) :
    Option (List Listener × List String) × SdEnv :=
  let r := Files true env selfPid
  (r.1.map (materializeListeners convL), r.2)

/-- `sdlisten.PacketConns`: same shape as `Listeners` for datagram sockets. -/
def PacketConns (convP : Nat → ConvResult) (env : SdEnv) (selfPid : Int) :
    Option (List PacketConn × List String) × SdEnv :=
  let r := Files true env selfPid
  (r.1.map (materializePacketConns convP), r.2)

/-- `sdlisten.TLSListeners`: calls `Listeners`; when the joined error is
non-nil it returns `nil, err` (dropping every converted listener); otherwise,
with a non-nil TLS config, wraps exactly the `"tcp"` listeners in place.
(The source's `listeners == nil` test is unreachable on the nil-error path,
since `Listeners` always returns a non-nil slice there.) -/
def TLSListeners (tlsConfig : Option Unit) (convL : Nat → ConvResult)
    (env : SdEnv) (selfPid : Int) :
    Option (List Listener × List String) × SdEnv :=
  let r := Listeners convL env selfPid
  (r.1.map fun p =>
    if p.2 ≠ [] then ([], p.2)
    else if tlsConfig = none then (p.1, [])
    else (p.1.map fun l =>
      if l.network = "tcp" then { l with tlsWrapped := true } else l, []),
   r.2)

end Sd

namespace Sd

/-- UTF-8 bytes of an ASCII string, as `List Nat` byte values. Every protocol
constant below is ASCII, so char codes are byte values. -/
def strBytes (s : String) : List Nat := s.toList.map Char.toNat

/-- `READY=1`. -/
def readyMessage : String := "READY=1"

/-- `RELOADING=1`. -/
def reloadingMessage : String := "RELOADING=1"

/-- `STOPPING=1`. -/
def stoppingMessage : String := "STOPPING=1"

/-- `STATUS=` field head. -/
def statusPfx : String := "STATUS="

/-- `ERRNO=` field head. -/
def errnoPfx : String := "ERRNO="

/-- `MONOTONIC_USEC=` field head. -/
def monotonicUsecPfx : String := "MONOTONIC_USEC="

/-- `WATCHDOG=1`. -/
def watchdogMessage : String := "WATCHDOG=1"

/-- `WATCHDOG=trigger`. -/
def watchdogTriggerMessage : String := "WATCHDOG=trigger"

/-- `sdnotify.formatErrorMessage`: replace every newline byte with a space. -/
def formatErrorMessage (v : List Nat) : List Nat :=
  v.map fun c => if c = 10 then 32 else c

/-- `sdnotify.prependString`. -/
def prependString (pre : String) (data : List Nat) : List Nat :=
  strBytes pre ++ data

/-- A `time.Time` as produced by `time.Unix(sec, nsec)` from a
`clock_gettime(CLOCK_MONOTONIC)` timespec (`nsec` already in `[0, 1e9)`). -/
structure MonoTime where
  sec : Int
  nsec : Nat
deriving DecidableEq

/-- `time.Time.UnixMicro` on such a value: `sec*1e6 + nsec/1e3`. -/
def unixMicro (t : MonoTime) : Int := t.sec * 1000000 + (t.nsec / 1000 : Nat)

instance : DecidableEq (Except String MonoTime) := fun a b =>
  match a, b with
  | .error x, .error y =>
    if h : x = y then .isTrue (by rw [h]) else .isFalse (by simp [h])
  | .ok x, .ok y =>
    if h : x = y then .isTrue (by rw [h]) else .isFalse (by simp [h])
  | .error _, .ok _ => .isFalse (by simp)
  | .ok _, .error _ => .isFalse (by simp)

/-- The state the notification transport runs against: the `NOTIFY_SOCKET`
value held in the package variable `socketPath`, outcome oracles for
`net.DialUnix` and `UnixConn.Write`, the result the monotonic clock source
(`getMonotonicUsec`) would report, a wall clock (never consulted by the
code), a count of dial attempts, and the datagrams transmitted so far. -/
structure World where
  socketPath : String
  dialErr : Option String
  writeErr : Option String
  monoClock : Except String MonoTime
  wallClock : Int
  opens : Nat
  sent : List (List Nat)
deriving DecidableEq

/-- `sdnotify.socketAddr`: `nil` when `socketPath` is empty. -/
def socketAddr (w : World) : Option (String × String) :=
  if w.socketPath = "" then none
  else some (w.socketPath, "unixgram")

/-- `sdnotify.sdnotify`: open the socket (a no-op returning `(nil, nil)` when
the address is nil), write the payload as one datagram, close. `opens` counts
`net.DialUnix` attempts; a transmitted payload is one appended element of
`sent`. -/
def sdnotify (w : World) (payload : List Nat) : World × Option String :=
  match socketAddr w with
  | none => (w, none)
  | some _ =>
    match w.dialErr with
    | some e => ({ w with opens := w.opens + 1 },
        some ("sdnotify: unable to open NOTIFY_SOCKET: " ++ e))
    | none =>
      match w.writeErr with
      | some e => ({ w with opens := w.opens + 1 },
          some ("sdnotify: failed to send message: " ++ e))
      | none => ({ w with opens := w.opens + 1, sent := w.sent ++ [payload] }, none)

/-- `sdnotify.Notify`. -/
def Notify (w : World) (payload : List Nat) : World × Option String :=
  sdnotify w payload

/-- `sdnotify.Ready`. -/
def Ready (w : World) : World × Option String :=
  sdnotify w (strBytes readyMessage)

/-- `sdnotify.Stopping`. -/
def Stopping (w : World) : World × Option String :=
  sdnotify w (strBytes stoppingMessage)

/-- `sdnotify.Reloading`: read the monotonic clock (returning its error, with
nothing sent, if the read fails), then send `RELOADING=1` and
`MONOTONIC_USEC=<usec>` as one payload. -/
def Reloading (w : World) : World × Option String :=
  match w.monoClock with
  | .error e => (w, some ("unable to get current monotonic time: " ++ e))
  | .ok t =>
    sdnotify w
      (strBytes (reloadingMessage ++ "\n" ++ monotonicUsecPfx ++ toString (unixMicro t)))

/-- `sdnotify.StatusBytes`: prepend `STATUS=` to the raw message bytes. -/
def StatusBytes (w : World) (msg : List Nat) : World × Option String :=
  sdnotify w (prependString statusPfx msg)

/-- `sdnotify.Status`. -/
def Status (w : World) (msg : String) : World × Option String :=
  StatusBytes w (strBytes msg)

/-- `sdnotify.ErrorBytes`: `STATUS=` plus the sanitized message, and when
`errno > 0` a newline followed by `ERRNO=<errno>`, all one payload. -/
def ErrorBytes (w : World) (msg : List Nat) (errno : Int) : World × Option String :=
  sdnotify w
    (strBytes statusPfx ++ formatErrorMessage msg ++
      (if 0 < errno then 10 :: (strBytes errnoPfx ++ strBytes (toString errno)) else []))

/-- `sdnotify.ErrorMessage`. -/
def ErrorMessage (w : World) (msg : String) (errno : Int) : World × Option String :=
  ErrorBytes w (strBytes msg) errno

/-- `sdnotify.Error` (the argument is `err.Error()`). -/
def Error (w : World) (errMsg : String) (errno : Int) : World × Option String :=
  ErrorBytes w (strBytes errMsg) errno

/-- `sdnotify.Watchdog`. -/
def Watchdog (w : World) : World × Option String :=
  sdnotify w (strBytes watchdogMessage)

/-- `sdnotify.WatchdogTrigger`. -/
def WatchdogTrigger (w : World) : World × Option String :=
  sdnotify w (strBytes watchdogTriggerMessage)

/-- `sdnotify.WatchdogInterval`: duration in nanoseconds (Go `time.Duration`
is an `int64`, so `usec * 1000` wraps via `wrap64`) and the returned error,
which is `nil` on every path of the source. -/
def WatchdogInterval (env : SdEnv) (selfPid : Int) : Int × Option String :=
  let wdUsec := getenv env.watchdogUsec
  if wdUsec = "" then (0, none)
  else
    match go_atoi wdUsec with
    | none => (0, none)
    | some usec =>
      if usec < 1 then (0, none)
      else
        let d := wrap64 (usec * 1000)
        let wdPid := getenv env.watchdogPid
        if wdPid = "" then (0, none)
        else
          match go_atoi wdPid with
          | none => (0, none)
          | some pid =>
            if pid ≠ selfPid then (0, none)
            else (d, none)

end Sd

namespace Sd

/-! ## Helper lemmas -/

theorem go_atoi_empty : go_atoi "" = none := by decide

theorem wrap64_eq_of_bounds (x : Int) (h1 : -(2 ^ 63) ≤ x) (h2 : x ≤ 2 ^ 63 - 1) :
    wrap64 x = x := by
  unfold wrap64
  have h3 : 0 ≤ x + 2 ^ 63 := by omega
  have h4 : x + 2 ^ 63 < 2 ^ 64 := by omega
  rw [Int.emod_eq_of_lt h3 h4]
  omega

theorem sdnotify_empty (w : World) (h : w.socketPath = "") (p : List Nat) :
    sdnotify w p = (w, none) := by
  simp [sdnotify, socketAddr, h]

/-! ## C1: successful resolution -/

/-- C1: with `LISTEN_PID` parsing to the current process id, `LISTEN_FDS`
parsing to a count `nfds ≥ 1` and `LISTEN_FDNAMES` splitting into at most
`nfds` names, `Files` returns exactly `nfds` handles in ascending descriptor
order, the `i`-th wrapping descriptor `i + 3`; the `i`-th name is the `i`-th
parsed name when that slot exists and is non-empty, else the synthesized
`LISTEN_FD_<numeral>` (the last two conjuncts spell out `fdName`). -/
theorem files_success_spec (env : SdEnv) (selfPid nfds : Int)
    (hpid : go_atoi (getenv env.listenPid) = some selfPid)
    (hfds : go_atoi (getenv env.listenFds) = some nfds) (hn : 1 ≤ nfds)
    (hk : (goSplitColon (getenv env.listenFdnames)).length ≤ nfds.toNat) :
    ∃ l, FilesCore env selfPid = some l ∧
      l.length = nfds.toNat ∧
      (∀ i : Nat, i < nfds.toNat →
        l[i]? = some { fd := i + listenFdsStart
                       name := fdName (goSplitColon (getenv env.listenFdnames)) i
                         (i + listenFdsStart) }) ∧
      (∀ i : Nat, ∀ s : String,
        (goSplitColon (getenv env.listenFdnames))[i]? = some s → 0 < s.length →
        fdName (goSplitColon (getenv env.listenFdnames)) i (i + listenFdsStart) = s) ∧
      (∀ i : Nat,
        ((goSplitColon (getenv env.listenFdnames))[i]? = none ∨
         (goSplitColon (getenv env.listenFdnames))[i]? = some "") →
        fdName (goSplitColon (getenv env.listenFdnames)) i (i + listenFdsStart) =
          "LISTEN_FD_" ++ toString (i + listenFdsStart)) := by
  have h0 : ¬nfds = 0 := by omega
  have h1 : ¬nfds < 0 := by omega
  refine ⟨(List.range nfds.toNat).map fun i =>
      { fd := i + listenFdsStart
        name := fdName (goSplitColon (getenv env.listenFdnames)) i (i + listenFdsStart) },
    ?_, ?_, ?_, ?_, ?_⟩
  · simp only [FilesCore, hpid, hfds]
    simp [h0, h1]
  · simp
  · intro i hi
    simp [List.getElem?_map, List.getElem?_range hi]
  · intro i s hs hlen
    simp only [fdName, hs]
    rw [if_pos hlen]
  · intro i h
    rcases h with h | h <;> simp [fdName, h]

def env1 : SdEnv :=
  { listenPid := some "42"
    listenFds := some "2"
    listenFdnames := some "web:"
    watchdogUsec := none
    watchdogPid := none }

/-- Witness for C1: `LISTEN_PID=42`, `LISTEN_FDS=2`, `LISTEN_FDNAMES=web:`
resolved by process 42 yields two handles. -/
theorem files_success_spec_witness :
    ∃ l, FilesCore env1 42 = some l ∧ l.length = 2 := by
  obtain ⟨l, h1, h2, -, -, -⟩ :=
    files_success_spec env1 42 2 (by decide) (by decide) (by decide) (by decide)
  exact ⟨l, h1, h2⟩

/-! ## C2: soft failure -/

/-- C2: when `LISTEN_PID` is absent/non-numeric, parses to a pid other than
the current one, or `LISTEN_FDS` is absent/non-numeric or parses to zero,
`Files` returns the empty set (Go `nil`) and signals no error (the function
has no error result at all), regardless of the other variables. -/
theorem files_soft_fail (env : SdEnv) (selfPid : Int)
    (h : go_atoi (getenv env.listenPid) = none ∨
         (∃ p, go_atoi (getenv env.listenPid) = some p ∧ p ≠ selfPid) ∨
         go_atoi (getenv env.listenFds) = none ∨
         go_atoi (getenv env.listenFds) = some 0) :
    FilesCore env selfPid = some [] := by
  rcases h with h | ⟨p, hp, hne⟩ | h | h
  · simp [FilesCore, h]
  · simp [FilesCore, hp, hne]
  all_goals
    rcases hA : go_atoi (getenv env.listenPid) with _ | p
    · simp [FilesCore, hA]
    · by_cases hp : p = selfPid
      · simp [FilesCore, hA, hp, h]
      · simp [FilesCore, hA, hp]

def envC2 : SdEnv :=
  { listenPid := some "7"
    listenFds := some "-12"
    listenFdnames := none
    watchdogUsec := none
    watchdogPid := none }

/-- Witness for C2: `LISTEN_PID=7` seen by process 8 yields the empty set even
though `LISTEN_FDS=-12`. -/
theorem files_soft_fail_witness : FilesCore envC2 8 = some [] :=
  files_soft_fail envC2 8 (Or.inr (Or.inl ⟨7, by decide, by decide⟩))

/-! ## C8: negative LISTEN_FDS panics -/

def envNeg : SdEnv :=
  { listenPid := some "1234"
    listenFds := some "-1"
    listenFdnames := none
    watchdogUsec := none
    watchdogPid := none }

/-- C8 (code bug): with `LISTEN_PID` matching and `LISTEN_FDS=-1`, the parse
succeeds (`-1 ≠ 0` and not an error), so the source reaches
`make([]*os.File, nfds)` with a negative length, a Go runtime panic —
modelled by `none`. The claim (and the spec's no-panic policy) says `Files`
returns normally on every `LISTEN_FDS` string. -/
theorem files_negative_count_panics : FilesCore envNeg 1234 = none := by decide

/-! ## C10: environment clearing -/

/-- C10: `Listeners` and `PacketConns` always resolve with environment
clearing enabled: the environment they return carries `LISTEN_PID`,
`LISTEN_FDS` and `LISTEN_FDNAMES` unset (whatever the conversion oracle did),
and every subsequent `Files`, `Listeners` or `PacketConns` call on that
cleared environment returns an empty result. -/
theorem listeners_clear_env (convL convP : Nat → ConvResult) (env : SdEnv) (selfPid : Int) :
    (Listeners convL env selfPid).2 = clearListenEnv env ∧
    (PacketConns convP env selfPid).2 = clearListenEnv env ∧
    (clearListenEnv env).listenPid = none ∧
    (clearListenEnv env).listenFds = none ∧
    (clearListenEnv env).listenFdnames = none ∧
    Files true (clearListenEnv env) selfPid = (some [], clearListenEnv env) ∧
    Listeners convL (clearListenEnv env) selfPid = (some ([], []), clearListenEnv env) ∧
    PacketConns convP (clearListenEnv env) selfPid = (some ([], []), clearListenEnv env) := by
  have hcore : FilesCore (clearListenEnv env) selfPid = some [] := by
    simp [FilesCore, clearListenEnv, getenv, go_atoi_empty]
  have hidem : clearListenEnv (clearListenEnv env) = clearListenEnv env := rfl
  refine ⟨rfl, rfl, rfl, rfl, rfl, ?_, ?_, ?_⟩ <;>
    simp [Files, Listeners, PacketConns, hcore, hidem, materializeListeners,
      materializePacketConns]

end Sd

namespace Sd

/-! ## C3: reload timestamp pairing -/

/-- C3: when the monotonic clock source reports `t`, `Reloading` transmits the
single payload `RELOADING=1\nMONOTONIC_USEC=<microseconds of t>` as one
datagram (exactly one element is appended to the transmission list, never
two), and the microsecond value depends only on the monotonic clock: the
result is unchanged under any change of the wall clock. -/
theorem reloading_spec (w : World) (t : MonoTime)
    (hclock : w.monoClock = .ok t) (hsock : w.socketPath ≠ "")
    (hdial : w.dialErr = none) (hwrite : w.writeErr = none) :
    (Reloading w).1.sent =
      w.sent ++
        [strBytes ("RELOADING=1" ++ "\n" ++ "MONOTONIC_USEC=" ++ toString (unixMicro t))] ∧
    (Reloading w).2 = none ∧
    (∀ x y : Int,
      (Reloading { w with wallClock := x }).1.sent =
        (Reloading { w with wallClock := y }).1.sent ∧
      (Reloading { w with wallClock := x }).2 =
        (Reloading { w with wallClock := y }).2) := by
  refine ⟨?_, ?_, ?_⟩ <;>
    simp [Reloading, hclock, sdnotify, socketAddr, hsock, hdial, hwrite,
      reloadingMessage, monotonicUsecPfx]

def w3 : World :=
  { socketPath := "/run/systemd/notify"
    dialErr := none
    writeErr := none
    monoClock := .ok ⟨4162, 392170000⟩
    wallClock := 0
    opens := 0
    sent := [] }

/-- Witness for C3 at the clock value `4162.392170000s` (microseconds
`4162392170`, the value the repository's own test pins). -/
theorem reloading_spec_witness :
    (Reloading w3).1.sent =
      w3.sent ++
        [strBytes ("RELOADING=1" ++ "\n" ++ "MONOTONIC_USEC=" ++
          toString (unixMicro ⟨4162, 392170000⟩))] ∧
    (Reloading w3).2 = none := by
  have h := reloading_spec w3 ⟨4162, 392170000⟩ rfl (by decide) rfl rfl
  exact ⟨h.1, h.2.1⟩

/-! ## C4: newline sanitization -/

def wNl : World :=
  { socketPath := "/tmp/notify.sock"
    dialErr := none
    writeErr := none
    monoClock := .ok ⟨0, 0⟩
    wallClock := 0
    opens := 0
    sent := [] }

/-- C4 counterexample: `StatusBytes` applies no sanitization. The message
bytes `[65, 10, 66]` (`A`, newline, `B`) are transmitted as
`STATUS=A\nB` — the payload contains the raw newline byte 10 coming from the
message value, so the claim as stated is false for `Status`/`StatusBytes`. -/
theorem statusBytes_transmits_newline :
    (StatusBytes wNl [65, 10, 66]).1.sent = [[83, 84, 65, 84, 85, 83, 61, 65, 10, 66]] ∧
    10 ∈ ([83, 84, 65, 84, 85, 83, 61, 65, 10, 66] : List Nat) := by decide

/-- C4 amended: only the error family (`Error`, `ErrorMessage`, `ErrorBytes`)
sanitizes: every newline byte of the message is replaced by a space before
transmission, so the sanitized part contains no newline byte.
`Status`/`StatusBytes` transmit the message bytes unchanged after the
`STATUS=` head. -/
theorem sanitize_spec (w : World) (msg : List Nat) (s : String) (errno : Int)
    (hsock : w.socketPath ≠ "") (hdial : w.dialErr = none) (hwrite : w.writeErr = none) :
    (∀ b ∈ formatErrorMessage msg, b ≠ 10) ∧
    (ErrorBytes w msg errno).1.sent =
      w.sent ++ [strBytes "STATUS=" ++ formatErrorMessage msg ++
        (if 0 < errno then 10 :: (strBytes "ERRNO=" ++ strBytes (toString errno)) else [])] ∧
    Error w s errno = ErrorBytes w (strBytes s) errno ∧
    ErrorMessage w s errno = ErrorBytes w (strBytes s) errno ∧
    (StatusBytes w msg).1.sent = w.sent ++ [strBytes "STATUS=" ++ msg] := by
  refine ⟨?_, ?_, rfl, rfl, ?_⟩
  · intro b hb
    rw [formatErrorMessage, List.mem_map] at hb
    obtain ⟨c, hc, hbc⟩ := hb
    subst hbc
    by_cases h10 : c = 10 <;> simp [h10]
  · simp [ErrorBytes, sdnotify, socketAddr, hsock, hdial, hwrite, statusPfx, errnoPfx]
  · simp [StatusBytes, prependString, sdnotify, socketAddr, hsock, hdial, hwrite, statusPfx]

/-- Witness for C4 (amended) at message `A\nB` with `errno = 0`. -/
theorem sanitize_spec_witness :
    (∀ b ∈ formatErrorMessage [65, 10, 66], b ≠ 10) ∧
    (ErrorBytes wNl [65, 10, 66] 0).1.sent =
      wNl.sent ++ [strBytes "STATUS=" ++ formatErrorMessage [65, 10, 66] ++
        (if (0 : Int) < 0 then
          10 :: (strBytes "ERRNO=" ++ strBytes (toString (0 : Int))) else [])] := by
  have h := sanitize_spec wNl [65, 10, 66] "x" 0 (by decide) rfl rfl
  exact ⟨h.1, h.2.1⟩

/-! ## C5: STATUS and ERRNO pairing -/

/-- C5: `ErrorBytes` (and `Error`, which delegates to it) transmits
`STATUS=<sanitized message>` and, exactly when `errno > 0`, one further
`ERRNO=<errno>` field joined by a single newline byte inside the same single
datagram; when `errno ≤ 0` the payload is only the `STATUS` field. In both
cases exactly one datagram is appended — the fields are never two sends. -/
theorem error_errno_spec (w : World) (msg : List Nat) (errno : Int) (s : String)
    (hsock : w.socketPath ≠ "") (hdial : w.dialErr = none) (hwrite : w.writeErr = none) :
    (0 < errno →
      (ErrorBytes w msg errno).1.sent =
        w.sent ++ [strBytes "STATUS=" ++ formatErrorMessage msg ++
          (10 :: (strBytes "ERRNO=" ++ strBytes (toString errno)))]) ∧
    (errno ≤ 0 →
      (ErrorBytes w msg errno).1.sent =
        w.sent ++ [strBytes "STATUS=" ++ formatErrorMessage msg]) ∧
    (ErrorBytes w msg errno).2 = none ∧
    Error w s errno = ErrorBytes w (strBytes s) errno := by
  refine ⟨?_, ?_, ?_, rfl⟩
  · intro h
    simp [ErrorBytes, sdnotify, socketAddr, hsock, hdial, hwrite, statusPfx, errnoPfx, h]
  · intro h
    have h' : ¬0 < errno := by omega
    simp [ErrorBytes, sdnotify, socketAddr, hsock, hdial, hwrite, statusPfx, h']
  · simp [ErrorBytes, sdnotify, socketAddr, hsock, hdial, hwrite]

/-- Witness for C5: message `a\nb` with `errno = 1` transmits
`STATUS=a b\nERRNO=1` as one datagram (the repository's own test vector). -/
theorem error_errno_spec_witness :
    (ErrorBytes wNl (strBytes "a\nb") 1).1.sent =
      wNl.sent ++ [strBytes "STATUS=" ++ formatErrorMessage (strBytes "a\nb") ++
        (10 :: (strBytes "ERRNO=" ++ strBytes (toString (1 : Int))))] :=
  (error_errno_spec wNl (strBytes "a\nb") 1 "x" (by decide) rfl rfl).1 (by decide)

/-! ## C6: empty endpoint is a no-op -/

def wEmptyClockFail : World :=
  { socketPath := ""
    dialErr := none
    writeErr := none
    monoClock := .error "clock error"
    wallClock := 0
    opens := 0
    sent := [] }

/-- C6 counterexample: with the endpoint empty but the monotonic clock read
failing, `Reloading` — a convenience notification built on the same
transport — returns a non-nil error (though it still opens no connection and
sends nothing), so "every convenience notification returns nil error" is
false as stated. -/
theorem reloading_empty_endpoint_nonnil :
    (Reloading wEmptyClockFail).2 ≠ none ∧
    (Reloading wEmptyClockFail).1.opens = 0 ∧
    (Reloading wEmptyClockFail).1.sent = [] := by decide

/-- C6 amended: with the notify endpoint unset or empty, `Notify` and every
convenience notification open no connection (no dial attempt, no datagram,
state unchanged) and return nil — except that `Reloading` first reads the
monotonic clock and returns that error, still without any connection
attempt, when the read fails; when the clock read succeeds it too is a
silent no-op. -/
theorem notify_noop_spec (w : World) (payload msg : List Nat) (s : String) (errno : Int)
    (t : MonoTime) (h : w.socketPath = "") :
    Notify w payload = (w, none) ∧ Ready w = (w, none) ∧ Stopping w = (w, none) ∧
    Status w s = (w, none) ∧ StatusBytes w msg = (w, none) ∧
    Error w s errno = (w, none) ∧ ErrorMessage w s errno = (w, none) ∧
    ErrorBytes w msg errno = (w, none) ∧
    Watchdog w = (w, none) ∧ WatchdogTrigger w = (w, none) ∧
    (w.monoClock = .ok t → Reloading w = (w, none)) ∧
    (Reloading w).1 = w := by
  refine ⟨sdnotify_empty w h _, sdnotify_empty w h _, sdnotify_empty w h _,
    sdnotify_empty w h _, sdnotify_empty w h _, sdnotify_empty w h _,
    sdnotify_empty w h _, sdnotify_empty w h _, sdnotify_empty w h _,
    sdnotify_empty w h _, ?_, ?_⟩
  · intro hm
    simp [Reloading, hm, sdnotify_empty w h]
  · rcases hm : w.monoClock with e | t'
    · simp [Reloading, hm]
    · simp [Reloading, hm, sdnotify_empty w h]

def wEmptyOk : World :=
  { socketPath := ""
    dialErr := none
    writeErr := none
    monoClock := .ok ⟨1, 2⟩
    wallClock := 0
    opens := 0
    sent := [] }

/-- Witness for C6 (amended) at an empty endpoint with a healthy clock. -/
theorem notify_noop_spec_witness :
    Notify wEmptyOk [1, 2, 3] = (wEmptyOk, none) ∧ Reloading wEmptyOk = (wEmptyOk, none) := by
  obtain ⟨h1, -, -, -, -, -, -, -, -, -, h11, -⟩ :=
    notify_noop_spec wEmptyOk [1, 2, 3] [] "x" 0 ⟨1, 2⟩ rfl
  exact ⟨h1, h11 rfl⟩

end Sd

namespace Sd

/-! ## C7: per-descriptor failure accumulation -/

theorem materializeListeners_eq (convL : Nat → ConvResult) (files : List GoFile) :
    materializeListeners convL files =
      (files.filterMap fun f =>
        match convL f.fd with
        | .ok net => some { name := f.name, network := net, tlsWrapped := false }
        | .fail _ => none,
       files.filterMap fun f =>
        match convL f.fd with
        | .ok _ => none
        | .fail e => some (listenerErr f.name e)) := by
  induction files with
  | nil => rfl
  | cons f fs ih =>
    rcases hc : convL f.fd with net | e <;>
      simp [materializeListeners, hc, ih, List.filterMap_cons]

theorem materializePacketConns_eq (convP : Nat → ConvResult) (files : List GoFile) :
    materializePacketConns convP files =
      (files.filterMap fun f =>
        match convP f.fd with
        | .ok _ => some { name := f.name }
        | .fail _ => none,
       files.filterMap fun f =>
        match convP f.fd with
        | .ok _ => none
        | .fail e => some (packetConnErr f.name e)) := by
  induction files with
  | nil => rfl
  | cons f fs ih =>
    rcases hc : convP f.fd with net | e <;>
      simp [materializePacketConns, hc, ih, List.filterMap_cons]

def convC7 : Nat → ConvResult := fun fd => if fd = 3 then .fail "boom" else .ok "tcp"

def envC7 : SdEnv :=
  { listenPid := some "7"
    listenFds := some "2"
    listenFdnames := some "a:b"
    watchdogUsec := none
    watchdogPid := none }

/-- C7 counterexample: with two inherited descriptors where descriptor 3
fails conversion and descriptor 4 converts fine, `Listeners` returns the
surviving sibling alongside the joined error — but `TLSListeners` returns no
listeners at all (`nil, err`), so the claim is false for `TLSListeners`. -/
theorem tls_drops_converted_siblings :
    (Listeners convC7 envC7 7).1 =
      some ([{ name := "b", network := "tcp", tlsWrapped := false }],
        ["sdlisten: unable to open listener (a): boom"]) ∧
    (TLSListeners (some ()) convC7 envC7 7).1 =
      some ([], ["sdlisten: unable to open listener (a): boom"]) := by decide

/-- C7 amended: `Listeners` and `PacketConns` behave as claimed — every
successfully converted descriptor is returned, in resolution order, together
with one joined per-descriptor error for each failed conversion, and a
failure never suppresses a sibling. `TLSListeners`, however, propagates the
joined error but returns no listeners whenever any conversion failed. -/
theorem partial_failure_spec (convL convP : Nat → ConvResult) (files : List GoFile)
    (env : SdEnv) (selfPid : Int) (cfg : Option Unit) :
    (materializeListeners convL files).1 =
      (files.filterMap fun f =>
        match convL f.fd with
        | .ok net => some { name := f.name, network := net, tlsWrapped := false }
        | .fail _ => none) ∧
    (materializeListeners convL files).2 =
      (files.filterMap fun f =>
        match convL f.fd with
        | .ok _ => none
        | .fail e => some (listenerErr f.name e)) ∧
    (materializePacketConns convP files).1 =
      (files.filterMap fun f =>
        match convP f.fd with
        | .ok _ => some { name := f.name }
        | .fail _ => none) ∧
    (materializePacketConns convP files).2 =
      (files.filterMap fun f =>
        match convP f.fd with
        | .ok _ => none
        | .fail e => some (packetConnErr f.name e)) ∧
    (Listeners convL env selfPid).1 =
      (FilesCore env selfPid).map (materializeListeners convL) ∧
    (PacketConns convP env selfPid).1 =
      (FilesCore env selfPid).map (materializePacketConns convP) ∧
    (∀ ls errs, (Listeners convL env selfPid).1 = some (ls, errs) → errs ≠ [] →
      (TLSListeners cfg convL env selfPid).1 = some ([], errs)) := by
  refine ⟨?_, ?_, ?_, ?_, rfl, rfl, ?_⟩
  · rw [materializeListeners_eq]
  · rw [materializeListeners_eq]
  · rw [materializePacketConns_eq]
  · rw [materializePacketConns_eq]
  · intro ls errs h hne
    simp [TLSListeners, h, hne]

end Sd

namespace Sd

/-! ## C9: watchdog interval -/

/-- C9 counterexample: `WATCHDOG_USEC=9223372036854775807` (the largest
signed 64-bit value, a present and valid positive numeral) with a matching
`WATCHDOG_PID` makes `time.Duration(usec) * time.Microsecond` overflow
`int64`: the returned duration is `-1000` nanoseconds, not the parsed
microsecond value. -/
theorem watchdogInterval_overflow :
    WatchdogInterval
      { listenPid := none
        listenFds := none
        listenFdnames := none
        watchdogUsec := some "9223372036854775807"
        watchdogPid := some "1234" } 1234 = (-1000, none) ∧
    (-1000 : Int) ≠ 9223372036854775807 * 1000 := by decide

/-- C9 amended: `WatchdogInterval` returns `(0, nil)` whenever
`WATCHDOG_USEC` is absent, non-numeric or non-positive, or `WATCHDOG_PID` is
absent, non-numeric or differs from the current pid; when both are valid and
matching it returns the parsed microsecond value as a duration
(`usec * 1000` nanoseconds) and no error, provided that product fits in a
signed 64-bit integer (otherwise the duration wraps). The error result is
nil on every path. -/
theorem watchdogInterval_spec (env : SdEnv) (selfPid : Int) :
    ((getenv env.watchdogUsec = "" ∨ go_atoi (getenv env.watchdogUsec) = none ∨
      (∃ u, go_atoi (getenv env.watchdogUsec) = some u ∧ u < 1) ∨
      getenv env.watchdogPid = "" ∨ go_atoi (getenv env.watchdogPid) = none ∨
      (∃ p, go_atoi (getenv env.watchdogPid) = some p ∧ p ≠ selfPid)) →
      WatchdogInterval env selfPid = (0, none)) ∧
    (∀ u, go_atoi (getenv env.watchdogUsec) = some u → 1 ≤ u →
      go_atoi (getenv env.watchdogPid) = some selfPid →
      u * 1000 ≤ int64Max →
      WatchdogInterval env selfPid = (u * 1000, none)) ∧
    (WatchdogInterval env selfPid).2 = none := by
  refine ⟨?_, ?_, ?_⟩
  · intro h
    by_cases hU : getenv env.watchdogUsec = ""
    · simp [WatchdogInterval, hU]
    · rcases hA : go_atoi (getenv env.watchdogUsec) with _ | u
      · simp [WatchdogInterval, hU, hA]
      · by_cases hlt : u < 1
        · simp [WatchdogInterval, hU, hA, hlt]
        · by_cases hP : getenv env.watchdogPid = ""
          · simp [WatchdogInterval, hU, hA, hlt, hP]
          · rcases hB : go_atoi (getenv env.watchdogPid) with _ | q
            · simp [WatchdogInterval, hU, hA, hlt, hP, hB]
            · by_cases hq : q = selfPid
              · exfalso
                rcases h with h | h | ⟨u', hu', hu1⟩ | h | h | ⟨p', hp', hpne⟩
                · exact hU h
                · rw [h] at hA; cases hA
                · rw [hu'] at hA
                  cases hA
                  exact hlt hu1
                · exact hP h
                · rw [h] at hB; cases hB
                · rw [hp'] at hB
                  cases hB
                  exact hpne hq
              · simp [WatchdogInterval, hU, hA, hlt, hP, hB, hq]
  · intro u hu h1 hp hfit
    have hU : getenv env.watchdogUsec ≠ "" := by
      intro he
      rw [he, go_atoi_empty] at hu
      cases hu
    have hP : getenv env.watchdogPid ≠ "" := by
      intro he
      rw [he, go_atoi_empty] at hp
      cases hp
    have hlt : ¬u < 1 := by omega
    have hwrap : wrap64 (u * 1000) = u * 1000 := by
      apply wrap64_eq_of_bounds
      · omega
      · have : int64Max = 2 ^ 63 - 1 := rfl
        omega
    simp [WatchdogInterval, hU, hu, hlt, hP, hp, hwrap]
  · by_cases hU : getenv env.watchdogUsec = ""
    · simp [WatchdogInterval, hU]
    · rcases hA : go_atoi (getenv env.watchdogUsec) with _ | u
      · simp [WatchdogInterval, hU, hA]
      · by_cases hlt : u < 1
        · simp [WatchdogInterval, hU, hA, hlt]
        · by_cases hP : getenv env.watchdogPid = ""
          · simp [WatchdogInterval, hU, hA, hlt, hP]
          · rcases hB : go_atoi (getenv env.watchdogPid) with _ | q
            · simp [WatchdogInterval, hU, hA, hlt, hP, hB]
            · by_cases hq : q = selfPid <;>
                simp [WatchdogInterval, hU, hA, hlt, hP, hB, hq]

def envWd5s : SdEnv :=
  { listenPid := none
    listenFds := none
    listenFdnames := none
    watchdogUsec := some "5000000"
    watchdogPid := some "77" }

/-- Witness for C9 (amended): `WATCHDOG_USEC=5000000` with a matching
`WATCHDOG_PID` yields five seconds (`5000000 * 1000` nanoseconds), no
error. -/
theorem watchdogInterval_spec_witness :
    WatchdogInterval envWd5s 77 = ((5000000 : Int) * 1000, none) :=
  (watchdogInterval_spec envWd5s 77).2.1 5000000 (by decide) (by decide) (by decide) (by decide)

end Sd
